import Mathlib

/-!
# Verification of `ipo_scraper.py`

A shallow embedding of the IPO subscription scraper
(`scrape_ipo_subscription_data` in `src/ipo_scraper.py`) and proofs about it.

The script iterates a list of page addresses; for each address it drives a
browser (navigate, scroll, wait for a table caption), parses the rendered
markup, resolves a company name from the page title with a URL fallback, and
extracts four subscription figures from the last row of a marked table.
Every per-address failure is caught, and one output record is appended per
address regardless of outcome; the browser is quit once after the loop.

The browser interaction is external I/O; we model it as an oracle assigning
to each loop index either a snapshot (page title plus parsed markup) or one
of the exception classes the code catches.  Everything after the snapshot is
pure Python string/BeautifulSoup manipulation, embedded below as computable
functions over an explicit markup model.
-/

deriving instance DecidableEq for Except

namespace IpoScraper

/-! ## String primitives

Python string operations used by the script, re-implemented as structural
recursions over `List Char` so that concrete instances evaluate by `decide`
or `rfl`. -/

/-- `containsList pat s` is Python's `pat in s` (contiguous substring test). -/
def containsList (pat : List Char) : List Char → Bool
  | [] => pat.isEmpty
  | c :: rest => pat.isPrefixOf (c :: rest) || containsList pat rest

/-- Python's `pat in s` on strings. -/
def strContains (s pat : String) : Bool :=
  containsList pat.data s.data

/-- Python's `s.split(sep)` for a one-character separator: splits at every
occurrence, keeping empty pieces. -/
def splitOnChar (sep : Char) : List Char → List (List Char)
  | [] => [[]]
  | c :: rest =>
    if c = sep then
      [] :: splitOnChar sep rest
    else
      match splitOnChar sep rest with
      | [] => [[c]]
      | g :: gs => (c :: g) :: gs

/-- Fuelled worker for `pyReplace`: replaces non-overlapping occurrences of
`pat` left to right, exactly as Python's `str.replace`.  The fuel is the
length of the subject, which bounds the number of steps. -/
def replaceFrom (pat rep : List Char) : Nat → List Char → List Char
  | 0, s => s
  | _ + 1, [] => []
  | fuel + 1, c :: rest =>
    if pat.isPrefixOf (c :: rest) then
      rep ++ replaceFrom pat rep fuel (List.drop (pat.length - 1) rest)
    else
      c :: replaceFrom pat rep fuel rest

/-- Python's `s.replace(pat, rep)` for a non-empty pattern (the script only
replaces the non-empty patterns `"-ipo"` and `"-"`). -/
def pyReplace (s pat rep : String) : String :=
  if pat.data.isEmpty then s
  else ⟨replaceFrom pat.data rep.data s.data.length s.data⟩

/-- Python's `s.strip()` restricted to the ASCII whitespace the inputs can
contain: drop whitespace from both ends. -/
def pyStrip (s : String) : String :=
  ⟨((s.data.dropWhile Char.isWhitespace).reverse.dropWhile Char.isWhitespace).reverse⟩

/-- One step of Python's `str.title`: a letter is uppercased when the
previous character was not a letter, lowercased otherwise; non-letters pass
through and reset the word boundary. -/
def pyTitleGo : Bool → List Char → List Char
  | _, [] => []
  | prevCased, c :: rest =>
    if c.isAlpha then
      (if prevCased then c.toLower else c.toUpper) :: pyTitleGo true rest
    else
      c :: pyTitleGo false rest

/-- Python's `s.title()` on the ASCII strings the fallback produces. -/
def pyTitle (s : String) : String :=
  ⟨pyTitleGo false s.data⟩

/-! ## Entity name resolution

Embeds lines 105–114 of the script: `re.search(r'^(.*?) IPO', driver.title)`
with `.group(1).strip()`, falling back to the first `'/'`-separated URL part
containing `"-ipo"`. -/

/-- The search for `^(.*?) IPO` anchored at the start of the title: the
capture group is the shortest newline-free prefix followed immediately by
the literal `" IPO"` (`.` does not match a newline, and without `MULTILINE`
the `^` anchor only matches at position 0). -/
def splitBeforeIPO : List Char → Option (List Char)
  | [] => none
  | c :: rest =>
    if (" IPO".data).isPrefixOf (c :: rest) then some []
    else if c = '\n' then none
    else (splitBeforeIPO rest).map (fun p => c :: p)

/-- `titleMatch title` is `Some (group 1)` when the title pattern matches. -/
def titleMatch (title : String) : Option String :=
  (splitBeforeIPO title.data).map (fun cs => String.mk cs)

/-- The URL fallback (lines 110–114): split the address on `'/'`, take the
first part containing `"-ipo"`, strip the `"-ipo"` occurrences and dashes,
and title-case; `none` when no part qualifies. -/
def urlNameFallback (url : String) : Option String :=
  ((splitOnChar '/' url.data).map (fun cs => String.mk cs)).find?
      (fun part => strContains part "-ipo") |>.map
    (fun part => pyTitle (pyReplace (pyReplace part "-ipo" "") "-" " "))

/-- Company-name resolution: the trimmed regex capture when the title
matches, otherwise the URL fallback, otherwise the initial sentinel. -/
def resolveName (title url : String) : String :=
  match titleMatch title with
  | some pre => pyStrip pre
  | none => (urlNameFallback url).getD "N/A"

/-! ## Markup model and table extraction

Embeds the BeautifulSoup navigation of lines 117–139.  A markup is the list
of caption elements in document order; each caption carries its string (if
it has one) and its enclosing `table` element (if any); a table carries its
`tbody` element (if any), which carries its rows; a row is its list of `td`
cells, each with an optional `data-title` attribute and its text. -/

structure Cell where
  dataTitle : Option String
  text : String
  deriving Repr, DecidableEq

structure Row where
  cells : List Cell
  deriving Repr, DecidableEq

structure TableNode where
  tbody : Option (List Row)
  deriving Repr, DecidableEq

structure Caption where
  text : Option String
  parent : Option TableNode
  deriving Repr, DecidableEq

structure Markup where
  captions : List Caption
  deriving Repr, DecidableEq

structure Snapshot where
  title : String
  markup : Markup
  deriving Repr, DecidableEq

/-- The caption phrase identifying the subscription table. -/
def markerPhrase : String := "IPO Bidding Live Updates from BSE, NSE"

/-- The caption filter `lambda text: text and marker in text`: a caption
with no string never matches. -/
def captionMatches (c : Caption) : Bool :=
  match c.text with
  | some t => strContains t markerPhrase
  | none => false

/-- `soup.find('caption', string=...)`: first matching caption in document
order. -/
def findMarkerCaption (m : Markup) : Option Caption :=
  m.captions.find? captionMatches

/-- `row.find('td', \x7b'data-title': lambda x: x and pat in x\x7d)`: the first
cell whose `data-title` attribute is present and contains `pat`. -/
def findCell (r : Row) (pat : String) : Option Cell :=
  r.cells.find? (fun c =>
    match c.dataTitle with
    | some d => strContains d pat
    | none => false)

/-- One metric field of the selected row: the cell's stripped text, or the
sentinel when the cell is absent (lines 131–139). -/
def cellValue (r : Row) (pat : String) : String :=
  match findCell r pat with
  | some c => pyStrip c.text
  | none => "N/A"

structure Metrics where
  qib : String
  nii : String
  rii : String
  total : String
  deriving Repr, DecidableEq

/-- All four metrics unresolved. -/
def absentMetrics : Metrics :=
  ⟨"N/A", "N/A", "N/A", "N/A"⟩

/-- The four fields of one row, each resolved by its own cell lookup. -/
def extractRow (r : Row) : Metrics :=
  ⟨cellValue r "QIB", cellValue r "NII", cellValue r "RII", cellValue r "Total"⟩

/-- The extraction block (lines 117–139) as a fallible pure function.
`Except.error ()` models the `AttributeError` raised by
`table_element.find('tbody').find_all('tr')` when the table has no `tbody`
element (`find` returns `None`); every other missing-data case leaves the
four metric variables at their sentinel initialization. -/
def extractMetricsE (m : Markup) : Except Unit Metrics :=
  match findMarkerCaption m with
  | none => Except.ok absentMetrics
  | some cap =>
    match cap.parent with
    | none => Except.ok absentMetrics
    | some tbl =>
      match tbl.tbody with
      | none => Except.error ()
      | some rows =>
        match rows.getLast? with
        | none => Except.ok absentMetrics
        | some lastRow => Except.ok (extractRow lastRow)

/-! ## Per-address processing and the batch loop

Embeds the `for url in ipo_urls` loop (lines 74–165).  The driver phase
(navigate, scroll, wait, read source and title) is an oracle outcome; on
success the remaining body is pure.  All four exception handlers fall
through to the same `append`, so each iteration yields exactly one record. -/

inductive ReadOutcome where
  /-- `TimeoutException`: page load or caption wait timed out. -/
  | timeout
  /-- `NoSuchElementException`: expected element absent after load. -/
  | elementMissing
  /-- `WebDriverException`: browser crash or disconnection. -/
  | loadError
  /-- Any other exception raised inside the `try` block. -/
  | genericError
  /-- The driver produced a page title and parsed markup. -/
  | success (snap : Snapshot)
  deriving Repr, DecidableEq

structure Record where
  companyName : String
  ipoLink : String
  qib : String
  nii : String
  rii : String
  total : String
  deriving Repr, DecidableEq

/-- The record appended when every field still holds its line-75–79
initialization. -/
def sentinelRecord (url : String) : Record :=
  ⟨"N/A", url, "N/A", "N/A", "N/A", "N/A"⟩

/-- One loop iteration.  On a driver failure, every variable keeps its
sentinel.  On success the name is resolved first (lines 105–114); if the
extraction block then raises (`Except.error`), the generic handler catches
it and the already-assigned name is appended with sentinel metrics. -/
def processAddress (o : ReadOutcome) (url : String) : Record :=
  match o with
  | ReadOutcome.success snap =>
    let name := resolveName snap.title url
    match extractMetricsE snap.markup with
    | Except.ok ms => ⟨name, url, ms.qib, ms.nii, ms.rii, ms.total⟩
    | Except.error _ => ⟨name, url, "N/A", "N/A", "N/A", "N/A"⟩
  | _ => sentinelRecord url

/-- The loop from position `i`: one record per remaining address, the
outcome of iteration `i` drawn from the oracle at `i`. -/
def runFrom (oracle : Nat → ReadOutcome) : Nat → List String → List Record
  | _, [] => []
  | i, url :: rest => processAddress (oracle i) url :: runFrom oracle (i + 1) rest

/-- The whole batch: `scraped_data` as returned after the loop. -/
def run (oracle : Nat → ReadOutcome) (urls : List String) : List Record :=
  runFrom oracle 0 urls

/-! ## Driver-session events

The temporal claims are about the shared browser session: `driver.get` is
called at the top of each iteration, and `driver.quit()` appears exactly
once, at line 167, after the loop.  Since all four handlers catch at the
iteration boundary, every iteration completes and no path inside the loop
releases the session; the event trace of a run is therefore a function of
the address list alone, whatever the oracle answers. -/

inductive Event where
  | navigate (url : String)
  | release
  deriving Repr, DecidableEq

/-- The driver events emitted from position `i` onward, ending with the
single `driver.quit()` after the loop. -/
def runEventsFrom (oracle : Nat → ReadOutcome) : Nat → List String → List Event
  | _, [] => [Event.release]
  | i, url :: rest => Event.navigate url :: runEventsFrom oracle (i + 1) rest

/-- The driver events of a whole batch run. -/
def runEvents (oracle : Nat → ReadOutcome) (urls : List String) : List Event :=
  runEventsFrom oracle 0 urls

/-- The top of the function: reading the spreadsheet and initializing the
WebDriver each return `None` on failure before the loop is reached; once
both succeed the loop runs and a `DataFrame` of the records is returned. -/
def scrape (excelUrls : Option (List String)) (driverOk : Bool)
    (oracle : Nat → ReadOutcome) : Option (List Record) :=
  match excelUrls with
  | none => none
  | some urls => if driverOk then some (run oracle urls) else none

/-! ## General lemmas about the batch loop -/

/-- Every iteration of the loop appends exactly one record. -/
theorem runFrom_length (oracle : Nat → ReadOutcome) :
    ∀ (i : Nat) (urls : List String),
      (runFrom oracle i urls).length = urls.length := by
  intro i urls
  induction urls generalizing i with
  | nil => rfl
  | cons url rest ih =>
    show (processAddress (oracle i) url :: runFrom oracle (i + 1) rest).length
        = rest.length + 1
    rw [List.length_cons, ih (i + 1)]

/-- The record at position `j` of the loop started at `i` is the one built
from address `j` with the oracle's outcome at iteration `i + j`. -/
theorem runFrom_get (oracle : Nat → ReadOutcome) :
    ∀ (urls : List String) (i j : Nat) (hj : j < urls.length)
      (hr : j < (runFrom oracle i urls).length),
      (runFrom oracle i urls).get ⟨j, hr⟩ =
        processAddress (oracle (i + j)) (urls.get ⟨j, hj⟩) := by
  intro urls
  induction urls with
  | nil => intro i j hj _; exact absurd hj (Nat.not_lt_zero j)
  | cons url rest ih =>
    intro i j hj hr
    cases j with
    | zero => simp [runFrom]
    | succ j =>
      have h1 : j < rest.length := Nat.lt_of_succ_lt_succ hj
      have h2 : j < (runFrom oracle (i + 1) rest).length := by
        rw [runFrom_length]; exact h1
      have harith : i + (j + 1) = (i + 1) + j := by omega
      rw [harith]
      exact ih (i + 1) j h1 h2

/-- Whatever the driver outcome, the appended record carries the address of
its own iteration in the `IPO Link` field. -/
theorem processAddress_link (o : ReadOutcome) (url : String) :
    (processAddress o url).ipoLink = url := by
  cases o with
  | success snap =>
    cases h : extractMetricsE snap.markup <;> simp [processAddress, h]
  | timeout => rfl
  | elementMissing => rfl
  | loadError => rfl
  | genericError => rfl

/-- The event trace of the loop: one navigation per address, then the single
release, independent of the oracle's answers. -/
theorem runEventsFrom_eq (oracle : Nat → ReadOutcome) :
    ∀ (urls : List String) (i : Nat),
      runEventsFrom oracle i urls = urls.map Event.navigate ++ [Event.release] := by
  intro urls
  induction urls with
  | nil => intro i; rfl
  | cons url rest ih => intro i; simp [runEventsFrom, ih (i + 1)]

/-- Navigation events are never the release event. -/
theorem count_release_navigations :
    ∀ urls : List String, (urls.map Event.navigate).count Event.release = 0 := by
  intro urls
  induction urls with
  | nil => rfl
  | cons url rest ih => simp [List.count_cons, ih]

/-! ## The claims -/

/-- Claim C1: for every input address list, the batch run produces exactly
one record per input address, in input order — the result has the same
length as the address list and record `i` carries address `i` in its
`IPO Link` field; no address is skipped and no extra records are
synthesized. -/
theorem run_complete (oracle : Nat → ReadOutcome) (urls : List String) :
    (run oracle urls).length = urls.length ∧
    ∀ (i : Nat) (hi : i < urls.length) (hr : i < (run oracle urls).length),
      ((run oracle urls).get ⟨i, hr⟩).ipoLink = urls.get ⟨i, hi⟩ := by
  refine ⟨runFrom_length oracle 0 urls, ?_⟩
  intro i hi hr
  simp only [run] at hr ⊢
  rw [runFrom_get oracle urls 0 i hi hr, Nat.zero_add]
  exact processAddress_link _ _

/-- Witness for C1 at a concrete batch of two addresses with a failing
reader. -/
theorem run_complete_witness :
    (0 : Nat) < ["addr1", "addr2"].length ∧
    ((run (fun _ => ReadOutcome.timeout) ["addr1", "addr2"]).get
        ⟨0, by decide⟩).ipoLink = "addr1" :=
  ⟨by decide,
   (run_complete (fun _ => ReadOutcome.timeout) ["addr1", "addr2"]).2 0
     (by decide) (by decide)⟩

/-- Claim C2: failure isolation — each position's record is determined
solely by that position's own driver outcome and address, so an exception
on one address never changes any other address's record; in particular,
with three addresses and a reader failure on the second, the first and
third still produce their own extracted records and every address yields
exactly one record. -/
theorem failure_isolation :
    (∀ (oracle : Nat → ReadOutcome) (urls : List String),
      (run oracle urls).length = urls.length) ∧
    (∀ (oracle : Nat → ReadOutcome) (urls : List String) (i : Nat)
        (hi : i < urls.length) (hr : i < (run oracle urls).length),
      (run oracle urls).get ⟨i, hr⟩ = processAddress (oracle i) (urls.get ⟨i, hi⟩)) ∧
    (∀ (oracle : Nat → ReadOutcome) (u1 u2 u3 : String) (s1 s3 : Snapshot),
      oracle 0 = ReadOutcome.success s1 →
      oracle 1 = ReadOutcome.timeout →
      oracle 2 = ReadOutcome.success s3 →
      run oracle [u1, u2, u3] =
        [processAddress (ReadOutcome.success s1) u1, sentinelRecord u2,
         processAddress (ReadOutcome.success s3) u3]) := by
  refine ⟨fun oracle urls => runFrom_length oracle 0 urls, ?_, ?_⟩
  · intro oracle urls i hi hr
    simp only [run] at hr ⊢
    rw [runFrom_get oracle urls 0 i hi hr, Nat.zero_add]
  · intro oracle u1 u2 u3 s1 s3 h0 h1 h2
    show [processAddress (oracle 0) u1, processAddress (oracle 1) u2,
          processAddress (oracle 2) u3] = _
    rw [h0, h1, h2]
    rfl

/-- Witness for C2: a concrete three-address batch whose second read times
out, the others succeeding on an empty page. -/
theorem failure_isolation_witness :
    run (fun i => if i = 1 then ReadOutcome.timeout
                  else ReadOutcome.success ⟨"Home", ⟨[]⟩⟩) ["a", "b", "c"] =
      [processAddress (ReadOutcome.success ⟨"Home", ⟨[]⟩⟩) "a",
       sentinelRecord "b",
       processAddress (ReadOutcome.success ⟨"Home", ⟨[]⟩⟩) "c"] :=
  failure_isolation.2.2
    (fun i => if i = 1 then ReadOutcome.timeout
              else ReadOutcome.success ⟨"Home", ⟨[]⟩⟩)
    "a" "b" "c" ⟨"Home", ⟨[]⟩⟩ ⟨"Home", ⟨[]⟩⟩ rfl rfl rfl

/-- Claim C9: once the per-address loop starts, the shared browser session
is released exactly once, at the end of the run, regardless of the oracle's
per-address outcomes — the trace is the navigations in order followed by a
single final release, so the session is never released inside the loop and
never left unreleased after the final address. -/
theorem session_released_once (oracle : Nat → ReadOutcome) (urls : List String) :
    runEvents oracle urls = urls.map Event.navigate ++ [Event.release] ∧
    (runEvents oracle urls).count Event.release = 1 ∧
    (runEvents oracle urls).getLast? = some Event.release := by
  have h := runEventsFrom_eq oracle urls 0
  refine ⟨h, ?_, ?_⟩
  · rw [runEvents, h, List.count_append, count_release_navigations]
    rfl
  · rw [runEvents, h]
    exact List.getLast?_concat _

/-- Claim C10: with an empty filtered address sequence the run still
succeeds — the loop body runs zero times, the session is still released,
and the function returns an empty result set rather than `None`. -/
theorem empty_input_run (oracle : Nat → ReadOutcome) :
    scrape (some []) true oracle = some [] ∧
    run oracle [] = [] ∧
    runEvents oracle [] = [Event.release] :=
  ⟨rfl, rfl, rfl⟩

/-- A markup whose marked caption sits in a table that has no `tbody`
element, e.g. `<table><caption>IPO Bidding Live Updates from BSE,
NSE</caption><tr>...</tr></table>` as parsed by `html.parser`, which does
not synthesize a `tbody`. -/
def tbodylessMarkup : Markup :=
  ⟨[⟨some markerPhrase, some ⟨none⟩⟩]⟩

/-- Counterexample to C3 as stated: on a snapshot whose marked table has no
body rows because the `tbody` element itself is missing, the extraction
block raises (`find('tbody')` returns `None` and `.find_all` then fails)
instead of returning the Absent result. -/
theorem extract_raises_without_tbody :
    extractMetricsE tbodylessMarkup = Except.error () ∧
    extractMetricsE tbodylessMarkup ≠ Except.ok absentMetrics ∧
    findMarkerCaption tbodylessMarkup = some ⟨some markerPhrase, some ⟨none⟩⟩ := by
  refine ⟨rfl, ?_, rfl⟩
  decide

/-- Claim C3 (amended): extraction returns the Absent result, not an error,
when the marker caption is absent, when the caption has no enclosing table,
or when the table's `tbody` element is present but holds no rows; a table
whose `tbody` element is missing entirely instead makes the block raise,
which the per-address generic handler turns into sentinel values. -/
theorem extract_absent_cases (m : Markup) :
    (findMarkerCaption m = none → extractMetricsE m = Except.ok absentMetrics) ∧
    (∀ cap : Caption, findMarkerCaption m = some cap → cap.parent = none →
      extractMetricsE m = Except.ok absentMetrics) ∧
    (∀ (cap : Caption) (tbl : TableNode), findMarkerCaption m = some cap →
      cap.parent = some tbl → tbl.tbody = some [] →
      extractMetricsE m = Except.ok absentMetrics) := by
  refine ⟨?_, ?_, ?_⟩
  · intro h; simp [extractMetricsE, h]
  · intro cap h1 h2; simp [extractMetricsE, h1, h2]
  · intro cap tbl h1 h2 h3; simp [extractMetricsE, h1, h2, h3]

/-- Witness for the amended C3 at a markup with no captions at all. -/
theorem extract_absent_cases_witness :
    findMarkerCaption (Markup.mk []) = none ∧
    extractMetricsE (Markup.mk []) = Except.ok absentMetrics :=
  ⟨rfl, (extract_absent_cases (Markup.mk [])).1 rfl⟩

/-- Claim C4: when the marked table's body holds more than one data row,
extraction returns exactly the four field values of the last row. -/
theorem last_row_selection (m : Markup) (cap : Caption) (tbl : TableNode)
    (rows : List Row) (lastRow : Row)
    (hcap : findMarkerCaption m = some cap) (hpar : cap.parent = some tbl)
    (htb : tbl.tbody = some rows) (_hlen : 1 < rows.length)
    (hlast : rows.getLast? = some lastRow) :
    extractMetricsE m = Except.ok (extractRow lastRow) := by
  simp [extractMetricsE, hcap, hpar, htb, hlast]

/-- A first-day row and a final-day row with different figures. -/
def sampleRow1 : Row :=
  ⟨[⟨some "QIB", "1.10x"⟩, ⟨some "NII", "0.80x"⟩,
    ⟨some "RII", "0.90x"⟩, ⟨some "Total", "0.95x"⟩]⟩

def sampleRow2 : Row :=
  ⟨[⟨some "QIB", "8.45x"⟩, ⟨some "NII", "2.10x"⟩,
    ⟨some "RII", "1.30x"⟩, ⟨some "Total", "3.05x"⟩]⟩

def twoRowMarkup : Markup :=
  ⟨[⟨some markerPhrase, some ⟨some [sampleRow1, sampleRow2]⟩⟩]⟩

/-- Witness for C4 at a concrete two-row table: the output is row 2's
values, not row 1's. -/
theorem last_row_selection_witness :
    1 < [sampleRow1, sampleRow2].length ∧
    extractMetricsE twoRowMarkup = Except.ok (extractRow sampleRow2) :=
  ⟨by decide,
   last_row_selection twoRowMarkup ⟨some markerPhrase, some ⟨some [sampleRow1, sampleRow2]⟩⟩
     ⟨some [sampleRow1, sampleRow2]⟩ [sampleRow1, sampleRow2] sampleRow2
     rfl rfl rfl (by decide) rfl⟩

/-- Claim C5: `LoadTimeout` (`TimeoutException`), `LoadError`
(`WebDriverException`) and `ElementMissing` (`NoSuchElementException`) are
caught at the per-address boundary and the record appended for that address
is the all-sentinel record paired with its address; if the reader times out
on every address, every output record is the all-sentinel record paired
with its address. -/
theorem sentinel_on_reader_failure :
    (∀ (url : String) (o : ReadOutcome),
      o = ReadOutcome.timeout ∨ o = ReadOutcome.loadError ∨
        o = ReadOutcome.elementMissing →
      processAddress o url = sentinelRecord url) ∧
    (∀ (oracle : Nat → ReadOutcome) (urls : List String),
      (∀ i, oracle i = ReadOutcome.timeout) →
      run oracle urls = urls.map sentinelRecord) := by
  constructor
  · rintro url o (rfl | rfl | rfl) <;> rfl
  · intro oracle urls h
    have H : ∀ (rest : List String) (i : Nat),
        runFrom oracle i rest = rest.map sentinelRecord := by
      intro rest
      induction rest with
      | nil => intro i; rfl
      | cons url tail ih =>
        intro i
        show processAddress (oracle i) url :: runFrom oracle (i + 1) tail
            = sentinelRecord url :: tail.map sentinelRecord
        rw [h i, ih (i + 1)]
        rfl
    exact H urls 0

/-- Witness for C5: one failing outcome and a batch whose reader always
times out. -/
theorem sentinel_on_reader_failure_witness :
    processAddress ReadOutcome.timeout "addr" = sentinelRecord "addr" ∧
    run (fun _ => ReadOutcome.timeout) ["a", "b"] = ["a", "b"].map sentinelRecord :=
  ⟨sentinel_on_reader_failure.1 "addr" ReadOutcome.timeout (Or.inl rfl),
   sentinel_on_reader_failure.2 (fun _ => ReadOutcome.timeout) ["a", "b"]
     (fun _ => rfl)⟩

/-- A snapshot markup whose marked table has exactly one data row holding a
single cell with the given `data-title` attribute and text. -/
def singleCellMarkup (d s : String) : Markup :=
  ⟨[⟨some markerPhrase, some ⟨some [⟨[⟨some d, s⟩]⟩]⟩⟩]⟩

/-- Claim C6: the four metric fields are resolved independently, each by
its own cell lookup in the selected row; a snapshot whose table has exactly
one data row containing only a QIB cell yields that cell's stripped text
for `qib` and the sentinel for the other three fields. -/
theorem partial_extraction_independence :
    (∀ r : Row, extractRow r =
      ⟨cellValue r "QIB", cellValue r "NII", cellValue r "RII",
       cellValue r "Total"⟩) ∧
    (∀ d s : String, strContains d "QIB" = true → strContains d "NII" = false →
      strContains d "RII" = false → strContains d "Total" = false →
      extractMetricsE (singleCellMarkup d s) =
        Except.ok ⟨pyStrip s, "N/A", "N/A", "N/A"⟩) := by
  constructor
  · intro r; rfl
  · intro d s hq hn hr ht
    have hm : strContains markerPhrase markerPhrase = true := by decide
    simp [singleCellMarkup, extractMetricsE, findMarkerCaption, List.find?,
          captionMatches, hm, extractRow, cellValue, findCell, hq, hn, hr, ht]

/-- Witness for C6 with a plain `QIB` attribute and padded cell text. -/
theorem partial_extraction_independence_witness :
    strContains "QIB" "QIB" = true ∧ strContains "QIB" "NII" = false ∧
    strContains "QIB" "RII" = false ∧ strContains "QIB" "Total" = false ∧
    extractMetricsE (singleCellMarkup "QIB" " 2.35x ") =
      Except.ok ⟨"2.35x", "N/A", "N/A", "N/A"⟩ :=
  ⟨by decide, by decide, by decide, by decide,
   partial_extraction_independence.2 "QIB" " 2.35x "
     (by decide) (by decide) (by decide) (by decide)⟩

/-- Counterexample to C7 as stated: a page title of `" IPO"` matches the
primary pattern with an empty capture group, so the resolved entity name is
the empty string — not a non-empty string. -/
theorem resolve_name_empty_counterexample :
    resolveName " IPO" "addr" = "" ∧ titleMatch " IPO" = some "" := by
  constructor <;> decide

/-- Claim C7 (amended): the resolver always returns a string and defaults
to the literal `"N/A"` sentinel, which is non-empty, when both the title
pattern and the address fallback fail; when the title pattern matches, the
result is the stripped capture, which may be empty. -/
theorem resolve_name_default :
    (∀ title url : String, titleMatch title = none →
      ((splitOnChar '/' url.data).map (fun cs => String.mk cs)).find?
          (fun part => strContains part "-ipo") = none →
      resolveName title url = "N/A" ∧ "N/A" ≠ "") ∧
    (∀ title url pre : String, titleMatch title = some pre →
      resolveName title url = pyStrip pre) := by
  constructor
  · intro title url ht hu
    refine ⟨?_, by decide⟩
    simp [resolveName, ht, urlNameFallback, hu]
  · intro title url pre ht
    simp [resolveName, ht]

/-- Witness for the amended C7: a title and address that defeat both
strategies, and a well-formed title for the primary strategy. -/
theorem resolve_name_default_witness :
    titleMatch "Welcome" = none ∧
    resolveName "Welcome" "plain" = "N/A" ∧
    resolveName "Acme Corp IPO Details, GMP" "plain" = pyStrip "Acme Corp" :=
  ⟨by decide,
   ((resolve_name_default.1 "Welcome" "plain" (by decide) (by decide)).1),
   resolve_name_default.2 "Acme Corp IPO Details, GMP" "plain" "Acme Corp"
     (by decide)⟩

/-- Counterexample to C8 as stated: the address
`"gmp.example/zeta-ipo/acme-corp-ipo"` contains the path segment
`"acme-corp-ipo"`, and the title `"Welcome"` fails the primary pattern, yet
the resolved name is `"Zeta"` — the fallback stops at the first segment
containing `"-ipo"`, which is `"zeta-ipo"`. -/
theorem name_fallback_counterexample :
    titleMatch "Welcome" = none ∧
    ((splitOnChar '/' "gmp.example/zeta-ipo/acme-corp-ipo".data).map
        (fun cs => String.mk cs)).contains "acme-corp-ipo" = true ∧
    resolveName "Welcome" "gmp.example/zeta-ipo/acme-corp-ipo" = "Zeta" ∧
    "Zeta" ≠ "Acme Corp" := by
  refine ⟨by decide, by decide, by decide, by decide⟩

/-- Claim C8 (amended): for every page title that fails the primary title
pattern and every address whose first `'/'`-separated segment containing
the `"-ipo"` marker is `"acme-corp-ipo"`, the resolved entity name is
`"Acme Corp"`: the fallback strips the marker and dashes and title-cases
the remainder. -/
theorem name_fallback_first_segment (title url : String)
    (ht : titleMatch title = none)
    (hu : ((splitOnChar '/' url.data).map (fun cs => String.mk cs)).find?
        (fun part => strContains part "-ipo") = some "acme-corp-ipo") :
    resolveName title url = "Acme Corp" := by
  simp [resolveName, ht, urlNameFallback, hu]
  decide

/-- Witness for the amended C8 at a concrete address whose only marker
segment is `"acme-corp-ipo"`. -/
theorem name_fallback_first_segment_witness :
    titleMatch "Welcome" = none ∧
    resolveName "Welcome" "gmp.example/acme-corp-ipo" = "Acme Corp" :=
  ⟨by decide,
   name_fallback_first_segment "Welcome" "gmp.example/acme-corp-ipo"
     (by decide) (by decide)⟩

end IpoScraper
